import Mathlib

/-!
Shallow embedding of the custom vector tile source of this repository.

Two components are embedded:

* `CustomVectorTileWorkerSource` (file `src/unnamed/part_000`): the worker-side
  indexing engine.  Its mutable fields `_vectorTilePlugin`, `loaded`,
  `_pendingCallback` and `_pendingRequest` become the record `WState`; the
  callback-style methods become pure functions from a state to a new state plus
  the callback invocations they perform.
* `CustomVectorTileSource` (file `src/src/source/custom_vector_tile_source.ts`):
  the main-thread request coordinator.  Its fields `_pendingLoads`, `_removed`,
  `_collectResourceTiming` and `_data` become the record `CoordState`; the
  dispatch and completion halves of `_updateWorkerData` become separate
  functions, and per-tile state (`tile.request`, `tile.aborted`, the tile's
  vector data) becomes the record `Tile`.

External libraries are modelled at their call contract: `geojson-vt` builds an
index or throws (the outcome is carried on the payload as a `BuildResult`),
`vt-pbf` is an encoding function from a feature slice to bytes, and the index's
`getTile` is an association-list lookup.
-/

namespace CustomVectorTile

/-- Error values appearing in the pipeline (the spec's taxonomy). -/
inductive Err
  | formatError
  | indexBuildError
  | notReadyError
  | transportError
deriving DecidableEq, Repr

/-- The spatial index built by `geojson-vt` (`this._vectorTilePlugin` after a
successful `loadData`).  `getTile z x y` returns the feature slice for a tile
coordinate, or `none` when the index holds nothing there — matching the
`geoJSONTile` being falsy in the source. -/
structure SpatialIndex where
  tiles : List ((Nat × Nat × Nat) × List Nat)
deriving DecidableEq, Repr

def SpatialIndex.getTile (idx : SpatialIndex) (z x y : Nat) : Option (List Nat) :=
  (idx.tiles.find? (fun p => p.1 == (z, x, y))).map Prod.snd

/-- Model of the external `vt-pbf` encoder: serializes a feature slice into a
binary payload.  Claims never depend on the byte format, only on which slice
gets encoded, so the payload is the slice itself. -/
def vtpbf (features : List Nat) : List Nat := features

/-- What the worker-side `loadTile` hook hands to its `LoadVectorDataCallback`:
`callback(null, null)`, `callback(err)`, or `callback(null, {vectorTile, rawData})`. -/
inductive TileResult
  | nullTile
  | errorResult (e : Err)
  | encoded (features : List Nat) (rawData : List Nat)
deriving DecidableEq, Repr

/-- State of `CustomVectorTileWorkerSource`: the `_vectorTilePlugin` index slot
(absent until a successful `loadData`), the `loaded` uid set, and the pending
data-load callback/request (identified by the id of the `loadData` call that
installed them). -/
structure WState where
  vectorTilePlugin : Option SpatialIndex
  loaded : List Nat
  pendingCallback : Option Nat
  pendingRequest : Option Nat
deriving DecidableEq, Repr

def wInit : WState :=
  { vectorTilePlugin := none, loaded := [], pendingCallback := none, pendingRequest := none }

/-- The module-level `loadTile` function of `src/unnamed/part_000` (lines
40-67), the `loadVectorData` hook: if `_vectorTilePlugin` is absent it calls
`callback(null, null)`; otherwise it asks the plugin for the tile; a falsy tile
again yields `callback(null, null)`; otherwise the tile's features are wrapped
and encoded with `vt-pbf`. -/
def loadTileW (s : WState) (z x y : Nat) : TileResult :=
  match s.vectorTilePlugin with
  | none => TileResult.nullTile
  | some plugin =>
    match plugin.getTile z x y with
    | none => TileResult.nullTile
    | some features => TileResult.encoded features (vtpbf features)

/-- What a `loadData` callback receives: `{abandoned:true}`, an error (possibly
`callback(undefined)` when the fetch produced neither error nor data), or the
success record with optional resource timing. -/
inductive LDResult
  | abandoned
  | failed (e : Option Err)
  | ok (resourceTiming : Option (List Nat))
deriving DecidableEq, Repr

/-- Outcome of the external `geojson-vt` call on a decoded geometry payload:
either the built index or the thrown error. -/
inductive BuildResult
  | built (idx : SpatialIndex)
  | thrown (e : Err)
deriving DecidableEq, Repr

/-- The data handed to `loadData`'s inner callback by `loadGeoJSON`: either a
value that is not an object (`typeof data !== 'object'`), or an object together
with what `geojson-vt` does with it. -/
inductive Payload
  | nonObject
  | obj (build : BuildResult)
deriving DecidableEq, Repr

/-- The synchronous head of `loadData` (lines 88-98): cancel the previous
in-flight request, hand the previous pending callback `{abandoned:true}`, then
install this call's callback and request.  Returns the new state, the callback
invocations performed (pairs of call id and result), and whether a previous
request's cancel handle was invoked. -/
def loadData_start (s : WState) (c : Nat) : WState × List (Nat × LDResult) × Bool :=
  ({ s with pendingCallback := some c, pendingRequest := some c },
   (match s.pendingCallback with
    | some c0 => [(c0, LDResult.abandoned)]
    | none => []),
   s.pendingRequest.isSome)

/-- The inner callback of `loadData` (lines 98-129), run when the fetch
resolves: clear the pending slots; on `err || !data` report the error; on a
non-object payload report a format error; otherwise rewind and build the index
with `geojson-vt` — a throw is reported as an error, and only on success is the
new index installed and `this.loaded` reset to `{}`. -/
def loadData_complete (s : WState) (err : Option Err) (data : Option Payload)
    (perf : Option (List Nat)) : WState × LDResult :=
  let s1 := { s with pendingCallback := (none : Option Nat), pendingRequest := (none : Option Nat) }
  match err, data with
  | some e, _ => (s1, LDResult.failed (some e))
  | none, none => (s1, LDResult.failed none)
  | none, some Payload.nonObject => (s1, LDResult.failed (some Err.formatError))
  | none, some (Payload.obj (BuildResult.thrown e)) => (s1, LDResult.failed (some e))
  | none, some (Payload.obj (BuildResult.built idx)) =>
      ({ s1 with vectorTilePlugin := some idx, loaded := [] }, LDResult.ok perf)

/-- `removeSource` (lines 163-169): if a data-load callback is pending it is
handed `{abandoned:true}`, then the remove is acknowledged (`callback()`).
Nothing else is touched — in particular neither `_vectorTilePlugin` nor
`loaded` nor the pending slots are cleared.  Returns the (unchanged) state, the
callback invocations, and the acknowledgement. -/
def removeSourceW (s : WState) : WState × List (Nat × LDResult) × Bool :=
  (s,
   (match s.pendingCallback with
    | some c0 => [(c0, LDResult.abandoned)]
    | none => []),
   true)

/-- Modelled from the spec: the superclass `VectorTileWorkerSource.loadTile`
wrapper (its code is not under `src/`) invokes the `loadVectorData` hook —
here `loadTileW` — and on a successfully encoded tile marks the uid present in
`this.loaded`. -/
def workerLoadTile (s : WState) (uid z x y : Nat) : WState × TileResult :=
  match loadTileW s z x y with
  | TileResult.encoded f raw => ({ s with loaded := uid :: s.loaded }, TileResult.encoded f raw)
  | r => (s, r)

/-- Modelled from the spec: the superclass `VectorTileWorkerSource.reloadTile`
(its code is not under `src/`) re-encodes the already-loaded tile from the
current immutable index without mutating any state. -/
def workerReloadTileSuper (s : WState) (uid z x y : Nat) : WState × TileResult :=
  (s, loadTileW s z x y)

/-- `CustomVectorTileWorkerSource.reloadTile` (lines 132-141): if the uid is in
`this.loaded` delegate to `super.reloadTile`, otherwise fall back to
`this.loadTile`. -/
def reloadTileW (s : WState) (uid z x y : Nat) : WState × TileResult :=
  if uid ∈ s.loaded then workerReloadTileSuper s uid z x y
  else workerLoadTile s uid z x y

/-! ### Trace semantics of worker data loads

A run of the worker's data-load machinery is a list of operations: `start c` is
a `loadData` call with id `c` (its synchronous head), and `complete err data
perf` is the underlying `loadGeoJSON` fetch of the current in-flight request
resolving.  A cancelled request never resolves (`getJSON`'s cancel aborts the
fetch, so the inner callback is never invoked), which the step function
reflects by keying completions on `pendingRequest`. -/

inductive WOp
  | start (c : Nat)
  | complete (err : Option Err) (data : Option Payload) (perf : Option (List Nat))

/-- One step of the worker: the new state together with the `loadData`
callback invocations performed during the step. -/
def wStep (s : WState) : WOp → WState × List (Nat × LDResult)
  | WOp.start c =>
      let r := loadData_start s c
      (r.1, r.2.1)
  | WOp.complete err data perf =>
      match s.pendingRequest with
      | none => (s, [])
      | some c =>
          let r := loadData_complete s err data perf
          (r.1, [(c, r.2)])

def execW : WState → List WOp → WState
  | s, [] => s
  | s, op :: rest => execW (wStep s op).1 rest

/-- The id of the most recent `start` in a trace, seeded with `a`. -/
def lastStartFrom : Option Nat → List WOp → Option Nat
  | a, [] => a
  | _, WOp.start c :: rest => lastStartFrom (some c) rest
  | a, WOp.complete _ _ _ :: rest => lastStartFrom a rest

def lastStart (ops : List WOp) : Option Nat := lastStartFrom none ops

/-! ### The main-thread coordinator (`custom_vector_tile_source.ts`) -/

inductive SourceDataType
  | metadata
  | content
deriving DecidableEq, Repr

/-- The worker's response to a `loadData` dispatch as the coordinator sees it:
the `abandoned` flag and the `resourceTiming[this.id]` entry. -/
structure LDOut where
  abandoned : Bool
  resourceTiming : Option (List Nat)
deriving DecidableEq, Repr

/-- Lifecycle notifications fired by the coordinator. -/
inductive CEvent
  | dataloading
  | dataabort (sdt : SourceDataType)
  | errored (e : Err)
  | dataEvent (sdt : SourceDataType) (resourceTiming : Option (List Nat))
deriving DecidableEq, Repr

/-- Messages the coordinator sends over the dispatcher actor. -/
inductive OutMsg
  | loadDataMsg (sdt : SourceDataType)
  | removeSourceMsg
  | removeTileMsg (uid : Nat)
deriving DecidableEq, Repr

/-- State of `CustomVectorTileSource`: `_pendingLoads`, `_removed`,
`_collectResourceTiming` and the authoritative `_data` (a URL or serialized
GeoJSON, abstracted to a string). -/
structure CoordState where
  pendingLoads : Int
  removed : Bool
  collectResourceTiming : Bool
  dataField : Option String
deriving DecidableEq, Repr

def cInit : CoordState :=
  { pendingLoads := 0, removed := false, collectResourceTiming := false, dataField := none }

/-- The dispatch half of `_updateWorkerData` (lines 130-143): increment
`_pendingLoads`, fire `dataloading`, and send the `loadData` message. -/
def updateWorkerData_dispatch (s : CoordState) (sdt : SourceDataType) :
    CoordState × CEvent × OutMsg :=
  ({ s with pendingLoads := s.pendingLoads + 1 }, CEvent.dataloading, OutMsg.loadDataMsg sdt)

/-- `setData` (lines 120-125): replace `_data` and run `_updateWorkerData`
with source-data type `content`. -/
def setData (s : CoordState) (d : String) : CoordState × CEvent × OutMsg :=
  updateWorkerData_dispatch { s with dataField := some d } SourceDataType.content

/-- The completion callback of `_updateWorkerData` (lines 143-165): decrement
`_pendingLoads`; if the source was removed or the result is abandoned fire
`dataabort`; otherwise extract the resource timing, fire an error event on
`err`, and fire the `data` event otherwise (attaching the timing only when
collection is on and the list is non-empty). -/
def updateWorkerData_complete (s : CoordState) (sdt : SourceDataType)
    (err : Option Err) (res : Option LDOut) : CoordState × CEvent :=
  let s1 := { s with pendingLoads := s.pendingLoads - 1 }
  if s1.removed || (match res with
                    | some r => r.abandoned
                    | none => false) then
    (s1, CEvent.dataabort sdt)
  else
    let rt : Option (List Nat) := match res with
      | some r => r.resourceTiming
      | none => none
    match err with
    | some e => (s1, CEvent.errored e)
    | none =>
        (s1, CEvent.dataEvent sdt
          (match rt with
           | some l => if s1.collectResourceTiming && decide (0 < l.length) then some l else none
           | none => none))

/-- `loaded()` (lines 168-170): `this._pendingLoads === 0`. -/
def loadedC (s : CoordState) : Bool := decide (s.pendingLoads = 0)

/-- `onRemove()` (lines 231-234): set `_removed` and tell the worker to remove
the source. -/
def onRemove (s : CoordState) : CoordState × OutMsg :=
  ({ s with removed := true }, OutMsg.removeSourceMsg)

/-! ### Trace semantics of coordinator data loads -/

inductive COp
  | dispatchOp (sdt : SourceDataType)
  | completeOp (sdt : SourceDataType) (err : Option Err) (res : Option LDOut)

def cStep (s : CoordState) : COp → CoordState × CEvent
  | COp.dispatchOp sdt =>
      ((updateWorkerData_dispatch s sdt).1, (updateWorkerData_dispatch s sdt).2.1)
  | COp.completeOp sdt err res => updateWorkerData_complete s sdt err res

def execC : CoordState → List COp → CoordState
  | s, [] => s
  | s, op :: rest => execC (cStep s op).1 rest

def countDispatch : List COp → Nat
  | [] => 0
  | COp.dispatchOp _ :: rest => countDispatch rest + 1
  | COp.completeOp _ _ _ :: rest => countDispatch rest

def countComplete : List COp → Nat
  | [] => 0
  | COp.dispatchOp _ :: rest => countComplete rest
  | COp.completeOp _ _ _ :: rest => countComplete rest + 1

/-- A trace is well formed relative to `d` outstanding dispatches when every
completion in it answers an outstanding dispatch: each request/response pair of
the dispatcher invokes its callback exactly once, so completions never outrun
dispatches. -/
def balancedFrom : Nat → List COp → Bool
  | _, [] => true
  | d, COp.dispatchOp _ :: rest => balancedFrom (d + 1) rest
  | d, COp.completeOp _ _ _ :: rest => decide (0 < d) && balancedFrom (d - 1) rest

/-! ### Per-tile request state on the coordinator -/

/-- Per-tile mutable state used by `loadTile`/`abortTile`: the cancelable
request handle (abstracted to an id), the `aborted` flag, and the vector data
the tile currently holds. -/
structure Tile where
  request : Option Nat
  aborted : Bool
  vectorData : Option (List Nat)
deriving DecidableEq, Repr

/-- `abortTile` (lines 218-224): if a request is in flight, cancel it and drop
the handle; in any case mark the tile aborted.  The boolean records whether a
cancel handle was invoked. -/
def abortTile (t : Tile) : Tile × Bool :=
  match t.request with
  | some _ => ({ t with request := none, aborted := true }, true)
  | none => ({ t with aborted := true }, false)

/-- Result of running the `loadTile` response handler (lines 200-215): the new
tile state, the arguments of the `done`-callback invocations performed (in
order; `none` is `callback(null)`), and whether `tile.loadVectorData` ran. -/
structure TileCompletion where
  tile : Tile
  calls : List (Option Err)
  loadedData : Bool
deriving DecidableEq, Repr

/-- The `loadTile` response handler: delete `tile.request`, unload the tile's
previously held vector data, then — aborted tiles get `callback(null)`; errors
get `callback(err)`; otherwise the response data is loaded into the tile and
`callback(null)` fires. -/
def loadTile_complete (t : Tile) (err : Option Err) (data : Option (List Nat)) :
    TileCompletion :=
  let t1 : Tile := { t with request := none, vectorData := none }
  if t1.aborted then { tile := t1, calls := [none], loadedData := false }
  else
    match err with
    | some e => { tile := t1, calls := [some e], loadedData := false }
    | none => { tile := { t1 with vectorData := data }, calls := [none], loadedData := true }

/-- The coordinator's `loadTile` (lines 173-216) composed with the worker's
answer: when the module-level `planet` provider is configured, its
`getTile(z, x, y)` is invoked and the result passed to `console.log`
(lines 190-194) — that value is the last component here and flows nowhere
else.  The request is then dispatched regardless; the worker produces the
response from its own state via the `loadTile` hook (marking the uid loaded on
success), and the coordinator's response handler loads that response into the
tile.  Components: the tile completion, the worker state after serving the
request, and the logged provider result (`none` when no provider is
configured). -/
def coordLoadTile (planet : Option SpatialIndex) (w : WState) (t : Tile)
    (uid z x y : Nat) : TileCompletion × WState × Option (Option (List Nat)) :=
  let logged : Option (Option (List Nat)) := planet.map (fun p => p.getTile z x y)
  let r := workerLoadTile w uid z x y
  match r.2 with
  | TileResult.encoded _ raw => (loadTile_complete t none (some raw), r.1, logged)
  | TileResult.nullTile => (loadTile_complete t none none, r.1, logged)
  | TileResult.errorResult e => (loadTile_complete t (some e) none, r.1, logged)

/-! ### Concrete states used to evaluate the operations -/

/-- A one-tile index: the feature slice `[1]` lives at coordinate `(0,0,0)`. -/
def idxExample : SpatialIndex := ⟨[((0, 0, 0), [1])]⟩

/-- A worker state after a successful load: a live index, uid `5` already in
the loaded set, and data-load call `3` still pending. -/
def wExample : WState :=
  { vectorTilePlugin := some idxExample, loaded := [5],
    pendingCallback := some 3, pendingRequest := some 3 }

/-- An aborted tile that still holds vector data and a request handle. -/
def tExample : Tile := { request := some 1, aborted := true, vectorData := some [9] }

/-- A fresh tile: no outstanding request, not aborted, holding no data. -/
def tileInit : Tile := { request := none, aborted := false, vectorData := none }

/-- An external provider holding the slice `[7]` at coordinate `(0,0,0)` —
deliberately different from `idxExample`, which holds `[1]` there. -/
def planetIdx : SpatialIndex := ⟨[((0, 0, 0), [7])]⟩

/-! ## Theorems -/

/-- `loadData`'s inner callback clears the pending request slot in every
branch. -/
lemma loadData_complete_clears_pending (s : WState) (err : Option Err)
    (data : Option Payload) (perf : Option (List Nat)) :
    (loadData_complete s err data perf).1.pendingRequest = none := by
  cases err with
  | some e => rfl
  | none =>
    cases data with
    | none => rfl
    | some p =>
      cases p with
      | nonObject => rfl
      | obj b =>
        cases b with
        | built idx => rfl
        | thrown e => rfl

/-- C2 counterexample: `removeSource` does not release the SpatialIndex or the
LoadedTileSet — on a state holding an index and a loaded tile, both survive the
call unchanged, so the claim that they are released entirely is false. -/
theorem removeSource_retains_state_counterexample :
    ¬ ((removeSourceW wExample).1.vectorTilePlugin = none ∧
       (removeSourceW wExample).1.loaded = []) := by decide

/-- C2 (amended): `removeSource` resolves any pending data-load callback with
`{abandoned:true}` before acknowledging, but leaves the worker state — the
SpatialIndex, the LoadedTileSet, and the pending callback/request slots —
entirely unchanged. -/
theorem removeSource_abandons_pending_only :
    ∀ (s : WState) (c0 : Nat), s.pendingCallback = some c0 →
      (removeSourceW s).2.1 = [(c0, LDResult.abandoned)] ∧
      (removeSourceW s).2.2 = true ∧
      (removeSourceW s).1 = s := by
  intro s c0 h
  refine ⟨?_, rfl, rfl⟩
  simp [removeSourceW, h]

theorem removeSource_abandons_pending_only_witness :
    (removeSourceW wExample).2.1 = [(3, LDResult.abandoned)] ∧
    (removeSourceW wExample).2.2 = true ∧
    (removeSourceW wExample).1 = wExample :=
  removeSource_abandons_pending_only wExample 3 rfl

/-- C3 counterexample: a tile requested before any successful data load (the
initial state has no index) is answered with `callback(null, null)` — a null
result with no error — not with a NotReadyError. -/
theorem loadTile_before_load_counterexample :
    wInit.vectorTilePlugin = none ∧
    loadTileW wInit 0 0 0 = TileResult.nullTile ∧
    TileResult.nullTile ≠ TileResult.errorResult Err.notReadyError := by decide

/-- C3 (amended): when no SpatialIndex exists, `loadTile` returns a null
result with no error (not a NotReadyError); when the index exists and holds a
tile at the coordinate, that feature slice is encoded and returned; when the
index holds nothing there, the result is again null rather than an encoded
empty slice. -/
theorem loadTile_null_or_encoded :
    ∀ (s : WState) (z x y : Nat),
      (s.vectorTilePlugin = none → loadTileW s z x y = TileResult.nullTile) ∧
      (∀ p t, s.vectorTilePlugin = some p → p.getTile z x y = some t →
        loadTileW s z x y = TileResult.encoded t (vtpbf t)) ∧
      (∀ p, s.vectorTilePlugin = some p → p.getTile z x y = none →
        loadTileW s z x y = TileResult.nullTile) := by
  intro s z x y
  refine ⟨?_, ?_, ?_⟩
  · intro h; simp [loadTileW, h]
  · intro p t hp ht; simp [loadTileW, hp, ht]
  · intro p hp ht; simp [loadTileW, hp, ht]

theorem loadTile_null_or_encoded_witness :
    loadTileW wInit 0 0 0 = TileResult.nullTile ∧
    loadTileW wExample 0 0 0 = TileResult.encoded [1] (vtpbf [1]) ∧
    loadTileW wExample 1 1 1 = TileResult.nullTile :=
  ⟨(loadTile_null_or_encoded wInit 0 0 0).1 rfl,
   (loadTile_null_or_encoded wExample 0 0 0).2.1 idxExample [1] rfl (by decide),
   (loadTile_null_or_encoded wExample 1 1 1).2.2 idxExample rfl (by decide)⟩

/-- C4: `reloadTile` on a uid already in the loaded set is the superclass
re-encode and leaves the whole worker state (in particular the SpatialIndex)
untouched; on a uid not yet loaded it is exactly `loadTile`, so a reload
racing ahead of its load still yields the encoded tile for the coordinate. -/
theorem reloadTile_fallback_semantics :
    ∀ (s : WState) (uid z x y : Nat),
      (uid ∈ s.loaded →
        reloadTileW s uid z x y = (s, loadTileW s z x y)) ∧
      (uid ∉ s.loaded →
        reloadTileW s uid z x y = workerLoadTile s uid z x y ∧
        (∀ p t, s.vectorTilePlugin = some p → p.getTile z x y = some t →
          (reloadTileW s uid z x y).2 = TileResult.encoded t (vtpbf t))) := by
  intro s uid z x y
  constructor
  · intro h
    simp [reloadTileW, h, workerReloadTileSuper]
  · intro h
    constructor
    · simp [reloadTileW, h]
    · intro p t hp ht
      simp [reloadTileW, h, workerLoadTile, loadTileW, hp, ht]

theorem reloadTile_fallback_semantics_witness :
    reloadTileW wExample 5 0 0 0 = (wExample, loadTileW wExample 0 0 0) ∧
    reloadTileW wExample 6 0 0 0 = workerLoadTile wExample 6 0 0 0 ∧
    (reloadTileW wExample 6 0 0 0).2 = TileResult.encoded [1] (vtpbf [1]) :=
  ⟨(reloadTile_fallback_semantics wExample 5 0 0 0).1 (by decide),
   ((reloadTile_fallback_semantics wExample 6 0 0 0).2 (by decide)).1,
   ((reloadTile_fallback_semantics wExample 6 0 0 0).2 (by decide)).2
     idxExample [1] rfl (by decide)⟩

/-- C8 counterexample: with the external provider configured and holding the
slice `[7]` at `(0,0,0)` while the worker's index holds `[1]` there, the data
delivered to the tile is the index's slice `[1]`, not the provider's `[7]`;
the provider's `getTile` result reaches only the log.  So the claimed
provider-sourced delivery bypassing the SpatialIndex is false at this input. -/
theorem provider_bypass_counterexample :
    SpatialIndex.getTile planetIdx 0 0 0 = some [7] ∧
    (coordLoadTile (some planetIdx) wExample tileInit 9 0 0 0).2.2 = some (some [7]) ∧
    (coordLoadTile (some planetIdx) wExample tileInit 9 0 0 0).1.tile.vectorData
      = some (vtpbf [1]) ∧
    some (vtpbf [1]) ≠ some (vtpbf [7]) := by decide

/-- C8 (amended): when the external tile provider is configured, `loadTile`
does call its `getTile` for the coordinate, but only logs the result: the
completion delivered to the caller is independent of the provider, and the
FeatureSlice delivered comes from the worker's SpatialIndex — which is not
bypassed.  A coordinate absent from that index yields an empty (null) tile
result, not an error. -/
theorem provider_logged_index_delivers :
    ∀ (planet : Option SpatialIndex) (w : WState) (t : Tile) (uid z x y : Nat),
      (coordLoadTile planet w t uid z x y).2.2
        = planet.map (fun p => p.getTile z x y) ∧
      (coordLoadTile planet w t uid z x y).1
        = (coordLoadTile none w t uid z x y).1 ∧
      (∀ p slice, t.aborted = false → w.vectorTilePlugin = some p →
        p.getTile z x y = some slice →
        (coordLoadTile planet w t uid z x y).1.tile.vectorData = some (vtpbf slice) ∧
        (coordLoadTile planet w t uid z x y).1.calls = [none]) ∧
      (∀ p, t.aborted = false → w.vectorTilePlugin = some p →
        p.getTile z x y = none →
        (coordLoadTile planet w t uid z x y).1.tile.vectorData = none ∧
        (coordLoadTile planet w t uid z x y).1.calls = [none]) := by
  intro planet w t uid z x y
  refine ⟨?_, ?_, ?_, ?_⟩
  · cases h : (workerLoadTile w uid z x y).2 <;> simp [coordLoadTile, h]
  · cases h : (workerLoadTile w uid z x y).2 <;> simp [coordLoadTile, h]
  · intro p slice hab hp ht
    have hw : (workerLoadTile w uid z x y).2 = TileResult.encoded slice (vtpbf slice) := by
      simp [workerLoadTile, loadTileW, hp, ht]
    constructor <;> simp [coordLoadTile, hw, loadTile_complete, hab]
  · intro p hab hp ht
    have hw : (workerLoadTile w uid z x y).2 = TileResult.nullTile := by
      simp [workerLoadTile, loadTileW, hp, ht]
    constructor <;> simp [coordLoadTile, hw, loadTile_complete, hab]

theorem provider_logged_index_delivers_witness :
    (coordLoadTile (some planetIdx) wExample tileInit 9 0 0 0).1.tile.vectorData
      = some (vtpbf [1]) ∧
    (coordLoadTile (some planetIdx) wExample tileInit 9 1 1 1).1.tile.vectorData = none ∧
    (coordLoadTile (some planetIdx) wExample tileInit 9 1 1 1).1.calls = [none] :=
  ⟨((provider_logged_index_delivers (some planetIdx) wExample tileInit 9 0 0 0).2.2.1
      idxExample [1] rfl rfl (by decide)).1,
   ((provider_logged_index_delivers (some planetIdx) wExample tileInit 9 1 1 1).2.2.2
      idxExample rfl rfl (by decide)).1,
   ((provider_logged_index_delivers (some planetIdx) wExample tileInit 9 1 1 1).2.2.2
      idxExample rfl rfl (by decide)).2⟩

/-- C9: whenever `loadData`'s inner callback reports a failure — fetch error,
missing or non-object payload, or the index build throwing — the SpatialIndex
slot and the LoadedTileSet are exactly what they were before the call; the
reset of the loaded set and the installation of a new index happen only on the
success path. -/
theorem loadData_error_atomicity :
    ∀ (s : WState) (err : Option Err) (data : Option Payload)
      (perf : Option (List Nat)) (e : Option Err),
      (loadData_complete s err data perf).2 = LDResult.failed e →
      (loadData_complete s err data perf).1.vectorTilePlugin = s.vectorTilePlugin ∧
      (loadData_complete s err data perf).1.loaded = s.loaded := by
  intro s err data perf e h
  cases err with
  | some e1 => exact ⟨rfl, rfl⟩
  | none =>
    cases data with
    | none => exact ⟨rfl, rfl⟩
    | some p =>
      cases p with
      | nonObject => exact ⟨rfl, rfl⟩
      | obj b =>
        cases b with
        | built idx => exact absurd h (by simp [loadData_complete])
        | thrown e2 => exact ⟨rfl, rfl⟩

theorem loadData_error_atomicity_witness :
    (loadData_complete wExample none (some Payload.nonObject) none).1.vectorTilePlugin
      = wExample.vectorTilePlugin ∧
    (loadData_complete wExample none (some Payload.nonObject) none).1.loaded
      = wExample.loaded :=
  loadData_error_atomicity wExample none (some Payload.nonObject) none
    (some Err.formatError) rfl

/-- C7: `abortTile` cancels the in-flight request exactly when one exists,
drops the handle, and marks the tile aborted; a completion arriving after the
abort performs no data delivery — the done callback is invoked once with null,
`loadVectorData` never runs, and the tile ends up holding no vector data. -/
theorem abortTile_ignores_late_completion :
    ∀ (t : Tile) (err : Option Err) (data : Option (List Nat)),
      (abortTile t).1.aborted = true ∧
      (abortTile t).1.request = none ∧
      ((abortTile t).2 = true ↔ t.request.isSome = true) ∧
      (loadTile_complete (abortTile t).1 err data).calls = [none] ∧
      (loadTile_complete (abortTile t).1 err data).loadedData = false ∧
      (loadTile_complete (abortTile t).1 err data).tile.vectorData = none := by
  intro t err data
  cases h : t.request with
  | none => simp [abortTile, h, loadTile_complete]
  | some r => simp [abortTile, h, loadTile_complete]

/-- C10: a `loadTile`/`reloadTile` completion on an aborted tile still discards
the tile's previously held vector data, and then invokes the done callback
exactly once, with null — no error, no data load — rather than skipping the
callback. -/
theorem aborted_completion_discards_and_calls_null :
    ∀ (t : Tile) (err : Option Err) (data : Option (List Nat)),
      t.aborted = true →
      (loadTile_complete t err data).tile.vectorData = none ∧
      (loadTile_complete t err data).calls = [none] ∧
      (loadTile_complete t err data).loadedData = false := by
  intro t err data h
  simp [loadTile_complete, h]

theorem aborted_completion_discards_and_calls_null_witness :
    (loadTile_complete tExample (some Err.transportError) (some [2])).tile.vectorData = none ∧
    (loadTile_complete tExample (some Err.transportError) (some [2])).calls = [none] ∧
    (loadTile_complete tExample (some Err.transportError) (some [2])).loadedData = false :=
  aborted_completion_discards_and_calls_null tExample (some Err.transportError)
    (some [2]) rfl

/-- Invariant of the worker trace semantics: the in-flight request, when one
exists, always belongs to the most recently started `loadData` call. -/
lemma execW_pending_lastStartFrom :
    ∀ (ops : List WOp) (s : WState) (a : Option Nat),
      s.pendingRequest = none ∨ s.pendingRequest = a →
      ((execW s ops).pendingRequest = none ∨
       (execW s ops).pendingRequest = lastStartFrom a ops) := by
  intro ops
  induction ops with
  | nil => intro s a h; exact h
  | cons op rest ih =>
    intro s a h
    cases op with
    | start c =>
      exact ih (wStep s (WOp.start c)).1 (some c) (Or.inr rfl)
    | complete err data perf =>
      cases hpr : s.pendingRequest with
      | none =>
        simp only [execW, wStep, hpr, lastStartFrom]
        exact ih s a h
      | some c =>
        simp only [execW, wStep, hpr, lastStartFrom]
        exact ih _ a (Or.inl (loadData_complete_clears_pending s err data perf))

/-- C1: starting a new `loadData` first hands the previous pending callback
`{abandoned:true}` (and cancels the previous request exactly when one is in
flight) before installing its own fetch; consequently, along any trace of
`loadData` starts and fetch completions, every non-abandoned callback result
goes to the most recently started call. -/
theorem loadData_freshest_write_wins :
    (∀ (s : WState) (c c0 : Nat), s.pendingCallback = some c0 →
      (loadData_start s c).2.1 = [(c0, LDResult.abandoned)] ∧
      (loadData_start s c).2.2 = s.pendingRequest.isSome ∧
      (loadData_start s c).1.pendingCallback = some c ∧
      (loadData_start s c).1.pendingRequest = some c) ∧
    (∀ (pre : List WOp) (op : WOp) (c : Nat) (r : LDResult),
      (c, r) ∈ (wStep (execW wInit pre) op).2 →
      r ≠ LDResult.abandoned →
      lastStart pre = some c) := by
  constructor
  · intro s c c0 h
    refine ⟨?_, rfl, rfl, rfl⟩
    simp [loadData_start, h]
  · intro pre op c r hmem hne
    have hinv := execW_pending_lastStartFrom pre wInit none (Or.inl rfl)
    cases op with
    | start c1 =>
      exfalso
      cases hpc : (execW wInit pre).pendingCallback with
      | none => simp [wStep, loadData_start, hpc] at hmem
      | some c0 =>
        simp [wStep, loadData_start, hpc] at hmem
        exact hne hmem.2
    | complete err data perf =>
      cases hpr : (execW wInit pre).pendingRequest with
      | none => simp [wStep, hpr] at hmem
      | some c1 =>
        simp [wStep, hpr] at hmem
        rcases hinv with h1 | h1
        · rw [hpr] at h1; exact absurd h1 (by simp)
        · rw [hpr] at h1
          show lastStartFrom none pre = some c
          rw [← h1, hmem.1]

theorem loadData_freshest_write_wins_witness :
    (loadData_start { wInit with pendingCallback := some 7 } 8).2.1
      = [(7, LDResult.abandoned)] ∧
    lastStart [WOp.start 0, WOp.start 1] = some 1 :=
  ⟨(loadData_freshest_write_wins.1 { wInit with pendingCallback := some 7 } 8 7 rfl).1,
   loadData_freshest_write_wins.2 [WOp.start 0, WOp.start 1]
     (WOp.complete none (some (Payload.obj (BuildResult.built ⟨[]⟩))) none)
     1 (LDResult.ok none) (by decide) (by decide)⟩

/-- C5: `setData` bumps `_pendingLoads`, fires `dataloading` and dispatches a
content load; every completion fires exactly one lifecycle event, which is
abort, error, or data; and an abandoned result always yields `dataabort`,
never an error event. -/
theorem setData_lifecycle_events :
    (∀ (s : CoordState) (d : String),
      (setData s d).1.pendingLoads = s.pendingLoads + 1 ∧
      (setData s d).2.1 = CEvent.dataloading ∧
      (setData s d).2.2 = OutMsg.loadDataMsg SourceDataType.content) ∧
    (∀ (s : CoordState) (sdt : SourceDataType) (err : Option Err) (res : Option LDOut),
      ((updateWorkerData_complete s sdt err res).2 = CEvent.dataabort sdt ∨
       (∃ e, err = some e ∧
         (updateWorkerData_complete s sdt err res).2 = CEvent.errored e) ∨
       (∃ rt, (updateWorkerData_complete s sdt err res).2 = CEvent.dataEvent sdt rt)) ∧
      (∀ r, res = some r → r.abandoned = true →
        (updateWorkerData_complete s sdt err res).2 = CEvent.dataabort sdt ∧
        ∀ e, (updateWorkerData_complete s sdt err res).2 ≠ CEvent.errored e)) := by
  constructor
  · intro s d
    exact ⟨rfl, rfl, rfl⟩
  · intro s sdt err res
    constructor
    · simp only [updateWorkerData_complete]
      split
      · exact Or.inl rfl
      · cases err with
        | some e => exact Or.inr (Or.inl ⟨e, rfl, rfl⟩)
        | none => exact Or.inr (Or.inr ⟨_, rfl⟩)
    · intro r hres hab
      subst hres
      constructor
      · simp [updateWorkerData_complete, hab]
      · intro e
        simp [updateWorkerData_complete, hab]

theorem setData_lifecycle_events_witness :
    (updateWorkerData_complete cInit SourceDataType.content (some Err.transportError)
      (some { abandoned := true, resourceTiming := none })).2
      = CEvent.dataabort SourceDataType.content :=
  (((setData_lifecycle_events.2 cInit SourceDataType.content (some Err.transportError)
      (some { abandoned := true, resourceTiming := none })).2
    { abandoned := true, resourceTiming := none } rfl rfl).1)

/-- The completion half of `_updateWorkerData` always decrements
`_pendingLoads` by one, whatever event it fires. -/
lemma updateWorkerData_complete_pendingLoads (s : CoordState) (sdt : SourceDataType)
    (err : Option Err) (res : Option LDOut) :
    (updateWorkerData_complete s sdt err res).1.pendingLoads = s.pendingLoads - 1 := by
  simp only [updateWorkerData_complete]
  split
  · rfl
  · cases err with
    | some e => rfl
    | none => rfl

/-- Along a trace in which completions never outrun dispatches, the pending
counter is the number of dispatches minus the number of completions and stays
non-negative. -/
lemma execC_pendingLoads_eq :
    ∀ (ops : List COp) (s : CoordState) (d : Nat),
      s.pendingLoads = (d : Int) → balancedFrom d ops = true →
      (execC s ops).pendingLoads
        = ((d : Int) + (countDispatch ops : Int)) - (countComplete ops : Int) ∧
      0 ≤ (execC s ops).pendingLoads := by
  intro ops
  induction ops with
  | nil =>
    intro s d hd _
    refine ⟨by simp [execC, countDispatch, countComplete, hd], ?_⟩
    rw [execC, hd]
    exact_mod_cast Nat.zero_le d
  | cons op rest ih =>
    intro s d hd hb
    cases op with
    | dispatchOp sdt =>
      have hstep : (cStep s (COp.dispatchOp sdt)).1.pendingLoads = ((d + 1 : Nat) : Int) := by
        simp [cStep, updateWorkerData_dispatch, hd]
      have hb1 : balancedFrom (d + 1) rest = true := by
        simpa [balancedFrom] using hb
      have hrec := ih (cStep s (COp.dispatchOp sdt)).1 (d + 1) hstep hb1
      refine ⟨?_, hrec.2⟩
      show (execC (cStep s (COp.dispatchOp sdt)).1 rest).pendingLoads = _
      rw [hrec.1]
      simp only [countDispatch, countComplete]
      push_cast
      ring
    | completeOp sdt err res =>
      have hb1 : (0 < d) ∧ balancedFrom (d - 1) rest = true := by
        simpa [balancedFrom] using hb
      have hstep : (cStep s (COp.completeOp sdt err res)).1.pendingLoads
          = ((d - 1 : Nat) : Int) := by
        show (updateWorkerData_complete s sdt err res).1.pendingLoads = _
        rw [updateWorkerData_complete_pendingLoads, hd]
        omega
      have hrec := ih (cStep s (COp.completeOp sdt err res)).1 (d - 1) hstep hb1.2
      refine ⟨?_, hrec.2⟩
      show (execC (cStep s (COp.completeOp sdt err res)).1 rest).pendingLoads = _
      rw [hrec.1]
      simp only [countDispatch, countComplete]
      have hd1 : 0 < d := hb1.1
      omega

/-- C6: each dispatch increments the pending-load counter by one and each
completion decrements it by one; along any trace where completions answer
outstanding dispatches the counter equals dispatches minus completions and is
non-negative, it returns to zero once every dispatched load has completed, and
`loaded()` is true exactly when the counter is zero. -/
theorem pending_loads_balanced :
    (∀ (s : CoordState) (sdt : SourceDataType),
      (cStep s (COp.dispatchOp sdt)).1.pendingLoads = s.pendingLoads + 1) ∧
    (∀ (s : CoordState) (sdt : SourceDataType) (err : Option Err) (res : Option LDOut),
      (cStep s (COp.completeOp sdt err res)).1.pendingLoads = s.pendingLoads - 1) ∧
    (∀ ops : List COp, balancedFrom 0 ops = true →
      (execC cInit ops).pendingLoads
        = (countDispatch ops : Int) - (countComplete ops : Int) ∧
      0 ≤ (execC cInit ops).pendingLoads ∧
      (countComplete ops = countDispatch ops → loadedC (execC cInit ops) = true)) ∧
    (∀ s : CoordState, loadedC s = true ↔ s.pendingLoads = 0) := by
  refine ⟨fun s sdt => rfl,
          fun s sdt err res => updateWorkerData_complete_pendingLoads s sdt err res,
          ?_, fun s => by simp [loadedC]⟩
  intro ops hb
  have h := execC_pendingLoads_eq ops cInit 0 rfl hb
  have heq : (execC cInit ops).pendingLoads
      = (countDispatch ops : Int) - (countComplete ops : Int) := by
    rw [h.1]; ring
  refine ⟨heq, h.2, ?_⟩
  intro hcd
  simp only [loadedC, heq, hcd]
  simp

theorem pending_loads_balanced_witness :
    loadedC (execC cInit [COp.dispatchOp SourceDataType.content,
      COp.completeOp SourceDataType.content none none]) = true :=
  (pending_loads_balanced.2.2.1 [COp.dispatchOp SourceDataType.content,
      COp.completeOp SourceDataType.content none none] (by decide)).2.2 (by decide)

end CustomVectorTile
